import Mathlib

/-!
Verification of the xero-mcp server core: the paginated REST client
(src/utils/client.ts), the credential resolver (src/utils/client.ts and the
gateway branch of src/index.ts), and the tool router / navigation state
machine (src/index.ts). Definitions are a shallow embedding of the
TypeScript source; JavaScript strings, JSON values and the singleton
module state are modelled explicitly.
-/

namespace XeroMcp

/-- Decoded JSON values, as produced by response.json() and carried in tool
arguments. Numbers are modelled as integers; no claim depends on numeric
values of fields. -/
inductive JValue where
  | null
  | bool (b : Bool)
  | num (n : Int)
  | str (s : String)
  | arr (elems : List JValue)
  | obj (fields : List (String × JValue))

/-- Models JavaScript String.prototype.startsWith: the first chars of s,
as many as p has, equal p. -/
def strStartsWith (s p : String) : Bool :=
  s.data.take p.data.length == p.data

/-- Truthiness of a possibly-absent JavaScript string (process.env entries
and request header values): undefined and the empty string are falsy. -/
def falsyStr : Option String → Bool
  | none => true
  | some s => s = ""

/-! ## Xero REST client (src/utils/client.ts) -/

/-- XERO_API_BASE from src/utils/client.ts. -/
def XERO_API_BASE : String := "https://api.xero.com/api.xro/2.0"

/-- XERO_PAGE_SIZE from src/utils/client.ts. -/
def XERO_PAGE_SIZE : Nat := 100

/-- Configuration held by a client instance (interface XeroClientConfig). -/
structure XeroClientConfig where
  accessToken : String
  tenantId : String
deriving DecidableEq

/-- Query-string encoding of URLSearchParams: key=value pairs joined
with ampersands, in insertion order. Percent-escaping of reserved
characters is not modelled; no claim uses characters that need it. -/
def encodeParams (params : List (String × String)) : String :=
  String.intercalate "&" (params.map (fun p => p.1 ++ "=" ++ p.2))

/-- URL construction at the top of XeroClient.request: base slash path,
with a query string appended when the params object is nonempty. -/
def buildUrl (path : String) (params : List (String × String)) : String :=
  let base := XERO_API_BASE ++ "/" ++ path
  if params.isEmpty then base else base ++ "?" ++ encodeParams params

/-- The argument the client passes to fetch: method, url, headers, and an
optional JSON body. -/
structure FetchRequest where
  method : String
  url : String
  headers : List (String × String)
  body : Option JValue

/-- A remote response as the client observes it: status code, raw text of
the body (response.text()) and its decoded JSON (response.json()). -/
structure HttpResponse where
  status : Nat
  rawBody : String
  jsonBody : JValue

/-- response.ok of the Fetch API: status in the range 200..299. -/
def respOk (r : HttpResponse) : Bool :=
  200 ≤ r.status && r.status < 300

/-- The data carried by the error thrown on a non-success status in
XeroClient.request: method, path, status code and the raw response body. -/
structure XeroError where
  method : String
  path : String
  status : Nat
  responseBody : String
deriving DecidableEq

/-- The message string of the thrown error. -/
def errorMessage (e : XeroError) : String :=
  "Xero API error " ++ e.method ++ " /" ++ e.path ++ " (" ++
    toString e.status ++ "): " ++ e.responseBody

/-- The headers attached by XeroClient.request: bearer authorization,
tenant id, content type and accept. -/
def requestHeaders (cfg : XeroClientConfig) : List (String × String) :=
  [("Authorization", "Bearer " ++ cfg.accessToken),
   ("xero-tenant-id", cfg.tenantId),
   ("Content-Type", "application/json"),
   ("Accept", "application/json")]

/-- The fetch call XeroClient.request makes for given method, path, query
params and optional body. -/
def mkFetchRequest (cfg : XeroClientConfig) (method path : String)
    (params : List (String × String)) (body : Option JValue) : FetchRequest :=
  ⟨method, buildUrl path params, requestHeaders cfg, body⟩

/-- XeroClient.request. The outbound HTTP call is abstracted as a pure
transport function from requests to responses. A non-ok response raises
the structured error; a 204 yields null without reading the body;
otherwise the decoded JSON body is returned. -/
def request (cfg : XeroClientConfig) (transport : FetchRequest → HttpResponse)
    (method path : String) (params : List (String × String)) (body : Option JValue) :
    Except XeroError JValue :=
  let response := transport (mkFetchRequest cfg method path params body)
  if respOk response then
    if response.status = 204 then .ok .null else .ok response.jsonBody
  else
    .error ⟨method, path, response.status, response.rawBody⟩

/-- XeroClient.get. -/
def get (cfg : XeroClientConfig) (transport : FetchRequest → HttpResponse)
    (path : String) (params : List (String × String)) : Except XeroError JValue :=
  request cfg transport "GET" path params none

/-- XeroClient.post: no query params, a JSON body. -/
def post (cfg : XeroClientConfig) (transport : FetchRequest → HttpResponse)
    (path : String) (body : JValue) : Except XeroError JValue :=
  request cfg transport "POST" path [] (some body)

/-- XeroClient.put: no query params, a JSON body. -/
def put (cfg : XeroClientConfig) (transport : FetchRequest → HttpResponse)
    (path : String) (body : JValue) : Except XeroError JValue :=
  request cfg transport "PUT" path [] (some body)

/-- XeroClient.delete: no query params, no body. -/
def deleteReq (cfg : XeroClientConfig) (transport : FetchRequest → HttpResponse)
    (path : String) : Except XeroError JValue :=
  request cfg transport "DELETE" path [] none

/-! ## Pagination (XeroClient.getPaginated) -/

/-- Outcome of the item-extraction step inside the pagination loop. -/
inductive ExtractResult where
  | items (l : List JValue)
  | noItems
  | raised

/-- Array.isArray. -/
def isArr : JValue → Bool
  | .arr _ => true
  | _ => false

/-- The extraction step of getPaginated: with a responseKey, index the
response at that key; otherwise take the first array-valued entry of
Object.values(response). A key bound to a non-array value, a missing key,
or a body with no array-valued entry leaves the truthiness-and-length
guard false (noItems). Object.values on null throws in JavaScript
(raised). String-valued entries, whose character sequences JavaScript
would spread, are not modelled as arrays. -/
def extractItems (body : JValue) (key : Option String) : ExtractResult :=
  match body with
  | .null => .raised
  | .obj fields =>
    match key with
    | some k =>
      match fields.lookup k with
      | some (.arr l) => .items l
      | _ => .noItems
    | none =>
      match (fields.map Prod.snd).find? isArr with
      | some (.arr l) => .items l
      | _ => .noItems
  | .arr l =>
    match key with
    | some _ => .noItems
    | none =>
      match l.find? isArr with
      | some (.arr l2) => .items l2
      | _ => .noItems
  | _ => .noItems

/-- Result of a pagination run, carrying the 1-based page numbers of the
requests that were issued. fuelOut marks exhaustion of the fuel bound the
embedding adds to the unbounded while loop. -/
inductive PagOutcome where
  | done (items : List JValue) (requests : List Nat)
  | fail (e : XeroError) (requests : List Nat)
  | raised (requests : List Nat)
  | fuelOut (requests : List Nat)

/-- The pages requested by an outcome. -/
def pagLog : PagOutcome → List Nat
  | .done _ l => l
  | .fail _ l => l
  | .raised l => l
  | .fuelOut l => l

/-- The while loop of getPaginated. Each iteration fetches the current
page, extracts the items, and either accumulates a full page and moves to
the next page number, or stops: on a short or empty page, on a body with
no extractable array, on a thrown extraction, or on a request error. -/
def getPaginatedAux (fetchPage : Nat → Except XeroError JValue) (responseKey : Option String) :
    Nat → Nat → List JValue → List Nat → PagOutcome
  | 0, _, _, log => .fuelOut log
  | fuel + 1, page, acc, log =>
    match fetchPage page with
    | .error e => .fail e (log ++ [page])
    | .ok body =>
      match extractItems body responseKey with
      | .raised => .raised (log ++ [page])
      | .noItems => .done acc (log ++ [page])
      | .items its =>
        if its.length > 0 then
          if XERO_PAGE_SIZE ≤ its.length then
            getPaginatedAux fetchPage responseKey fuel (page + 1) (acc ++ its) (log ++ [page])
          else
            .done (acc ++ its) (log ++ [page])
        else
          .done acc (log ++ [page])

/-- JavaScript object-spread update of the params record with a page key:
an existing page entry is overwritten in place, a fresh one is appended. -/
def upsert : List (String × String) → String → String → List (String × String)
  | [], k, v => [(k, v)]
  | (entry :: rest), k, v =>
    if entry.1 = k then (k, v) :: rest else entry :: upsert rest k v

/-- The query params getPaginated passes to get for a page number. -/
def pageParams (params : List (String × String)) (page : Nat) : List (String × String) :=
  upsert params "page" (toString page)

/-- XeroClient.getPaginated: run the loop from page 1 with empty
accumulator. -/
def getPaginated (cfg : XeroClientConfig) (transport : FetchRequest → HttpResponse)
    (path : String) (params : List (String × String)) (responseKey : Option String)
    (fuel : Nat) : PagOutcome :=
  getPaginatedAux (fun page => get cfg transport path (pageParams params page)) responseKey
    fuel 1 [] []

/-- The items a given page contributes when its extraction succeeds, used
to state the concatenation property. -/
def pageItems (fetchPage : Nat → Except XeroError JValue) (key : Option String)
    (page : Nat) : List JValue :=
  match fetchPage page with
  | .ok body =>
    match extractItems body key with
    | .items l => l
    | _ => []
  | .error _ => []

/-- The loop guard: page p fetched successfully and extracted a full page
of at least XERO_PAGE_SIZE items, so the loop continues past it. -/
def contAt (fetchPage : Nat → Except XeroError JValue) (key : Option String)
    (page : Nat) : Bool :=
  match fetchPage page with
  | .ok body =>
    match extractItems body key with
    | .items l => XERO_PAGE_SIZE ≤ l.length
    | _ => false
  | .error _ => false

/-- Page p fetched successfully and yields fewer than XERO_PAGE_SIZE items
(possibly zero, or no extractable array at all): the loop stops at p with
a done outcome. -/
def shortPage (fetchPage : Nat → Except XeroError JValue) (key : Option String)
    (page : Nat) : Bool :=
  match fetchPage page with
  | .ok body =>
    match extractItems body key with
    | .items l => l.length < XERO_PAGE_SIZE
    | .noItems => true
    | .raised => false
  | .error _ => false

/-! ## Credential resolver (src/utils/client.ts getClient / resetClient,
and the gateway branch of startHttpTransport in src/index.ts) -/

/-- The process-wide mutable module state: the lazily constructed
singleton client and the two credential environment variables. -/
structure GlobalState where
  _client : Option XeroClientConfig
  envAccessToken : Option String
  envTenantId : Option String
deriving DecidableEq

/-- The message of the error thrown when either credential variable is
absent. -/
def requiredEnvMessage : String :=
  "XERO_ACCESS_TOKEN and XERO_TENANT_ID environment variables are required. " ++
    "In gateway mode, these are set from request headers automatically."

/-- getClient: return the cached instance if present; otherwise read both
environment variables, failing when either is falsy (absent or empty),
and cache a fresh instance built from exactly the pair that was read. -/
def getClient (st : GlobalState) : Except String (XeroClientConfig × GlobalState) :=
  match st._client with
  | some c => .ok (c, st)
  | none =>
    match st.envAccessToken, st.envTenantId with
    | some accessToken, some tenantId =>
      if accessToken = "" ∨ tenantId = "" then
        .error requiredEnvMessage
      else
        .ok (⟨accessToken, tenantId⟩,
             { st with _client := some ⟨accessToken, tenantId⟩ })
    | _, _ => .error requiredEnvMessage

/-- resetClient: drop the cached instance. -/
def resetClient (st : GlobalState) : GlobalState :=
  { st with _client := none }

/-- What the HTTP request listener in startHttpTransport does with one
inbound request, before any protocol handling: health answers statically,
the protocol path under gateway mode validates and installs the header
credentials or rejects with 401, anything else is 404. handled carries
the global state in effect when transport.handleRequest is reached. -/
inductive HttpReply where
  | health (status : Nat)
  | unauthorized (status : Nat) (error message : String) (required : List String)
  | handled (st : GlobalState)
  | notFound (status : Nat) (error : String) (endpoints : List String)
deriving DecidableEq

/-- The request listener of startHttpTransport, with header values as the
Node request object presents them (undefined when absent, possibly the
empty string). In gateway mode on the protocol path, a falsy header value
yields the 401 reply; otherwise the client cache is invalidated and both
environment variables are overwritten with the header pair before the
request is handed to the protocol transport. -/
def httpHandle (isGatewayMode : Bool) (st : GlobalState) (pathname : String)
    (accessTokenHeader tenantIdHeader : Option String) : HttpReply :=
  if pathname = "/health" then
    .health 200
  else if pathname = "/mcp" then
    if isGatewayMode then
      if falsyStr accessTokenHeader || falsyStr tenantIdHeader then
        .unauthorized 401 "Missing credentials"
          "Gateway mode requires X-Xero-Access-Token and X-Xero-Tenant-Id headers"
          ["X-Xero-Access-Token", "X-Xero-Tenant-Id"]
      else
        .handled { resetClient st with
                     envAccessToken := accessTokenHeader,
                     envTenantId := tenantIdHeader }
    else
      .handled st
  else
    .notFound 404 "Not found" ["/mcp", "/health"]

/-! ## Tool router and navigation state machine (src/index.ts) -/

/-- A tool descriptor. Only the identifier takes part in routing and
listing; descriptions and input schemas are static configuration data and
are not modelled. -/
structure Tool where
  name : String
deriving DecidableEq

/-- The navigation tool shown at the root. -/
def navigateTool : Tool := ⟨"xero_navigate"⟩

/-- The back-navigation tool shown inside a domain. -/
def backTool : Tool := ⟨"xero_back"⟩

/-- contactTools from src/domains/contacts.ts. -/
def contactTools : List Tool :=
  [⟨"xero_contacts_list"⟩, ⟨"xero_contacts_get"⟩,
   ⟨"xero_contacts_create"⟩, ⟨"xero_contacts_search"⟩]

/-- invoiceTools from src/domains/invoices.ts. -/
def invoiceTools : List Tool :=
  [⟨"xero_invoices_list"⟩, ⟨"xero_invoices_get"⟩,
   ⟨"xero_invoices_create"⟩, ⟨"xero_invoices_update_status"⟩]

/-- paymentTools from src/domains/payments.ts. -/
def paymentTools : List Tool :=
  [⟨"xero_payments_list"⟩, ⟨"xero_payments_get"⟩, ⟨"xero_payments_create"⟩]

/-- accountTools from src/domains/accounts.ts. -/
def accountTools : List Tool :=
  [⟨"xero_accounts_list"⟩, ⟨"xero_accounts_get"⟩]

/-- reportTools from src/domains/reports.ts. -/
def reportTools : List Tool :=
  [⟨"xero_reports_profit_and_loss"⟩, ⟨"xero_reports_balance_sheet"⟩,
   ⟨"xero_reports_aged_receivables"⟩, ⟨"xero_reports_aged_payables"⟩]

/-- The five domain identifiers of the navigate tool enum. -/
def domainNames : List String :=
  ["contacts", "invoices", "payments", "accounts", "reports"]

/-- getDomainTools: the switch over the Domain union type. At runtime an
argument outside the five literals falls through every case and the
function returns undefined, modelled as none. -/
def getDomainTools (domain : String) : Option (List Tool) :=
  match domain with
  | "contacts" => some contactTools
  | "invoices" => some invoiceTools
  | "payments" => some paymentTools
  | "accounts" => some accountTools
  | "reports" => some reportTools
  | _ => none

/-- The runtime value of state.currentDomain. The TypeScript annotation
says Domain or null, but the unchecked cast in the navigate branch lets
any runtime value in: null, an arbitrary string, or a non-string value
such as undefined (constructor other). -/
inductive NavValue where
  | null
  | dom (s : String)
  | other
deriving DecidableEq

/-- The ListTools handler: at null state only the navigate tool; otherwise
the back tool followed by the current domain tools. Spreading the
undefined result of getDomainTools throws, modelled as none. -/
def listTools (st : NavValue) : Option (List Tool) :=
  match st with
  | .null => some [navigateTool]
  | .other => none
  | .dom d => (getDomainTools d).map (fun ts => backTool :: ts)

/-- What a domain handler invocation produces: a normal result, an
error-flagged result, or a thrown exception with its message (caught at
the dispatch boundary). -/
inductive HandlerOutcome where
  | success (text : String)
  | failure (text : String)
  | thrown (message : String)

/-- A CallTool response: the text content and the error flag (isError is
absent, hence false, on success paths). -/
structure CallResult where
  text : String
  isError : Bool
deriving DecidableEq

/-- The catch-wrapping of a handler outcome performed by the CallTool
handler: thrown exceptions become error-flagged results with an Error
prefix. -/
def wrapOutcome : HandlerOutcome → CallResult
  | .success t => ⟨t, false⟩
  | .failure t => ⟨t, true⟩
  | .thrown m => ⟨"Error: " ++ m, true⟩

/-- The five domain handler functions the router dispatches to
(handleContactTool and friends), abstracted over: each takes the tool
name and the argument object. -/
structure Handlers where
  contacts : String → JValue → HandlerOutcome
  invoices : String → JValue → HandlerOutcome
  payments : String → JValue → HandlerOutcome
  accounts : String → JValue → HandlerOutcome
  reports : String → JValue → HandlerOutcome

/-- What the navigate branch does with its argument object before writing
the state: destructuring undefined or null args throws before the state
is written; an object whose domain entry is a string stores that string;
an absent or non-string domain entry stores a non-string value
(undefined included), as does destructuring a primitive. -/
inductive NavArgOutcome where
  | destructThrow
  | setOther
  | setDom (d : String)

/-- Evaluate the domain argument of a navigate call. -/
def navDomainOf : Option JValue → NavArgOutcome
  | none => .destructThrow
  | some .null => .destructThrow
  | some (.obj fields) =>
    match fields.lookup "domain" with
    | some (.str d) => .setDom d
    | _ => .setOther
  | some _ => .setOther

/-- Modelled message of the TypeError thrown when destructuring the
domain argument from a non-object. -/
def destructureTypeErrorMessage : String :=
  "TypeError: cannot destructure property domain of the arguments object"

/-- Modelled message of the TypeError thrown when calling map on the
undefined result of getDomainTools. -/
def undefinedMapTypeErrorMessage : String :=
  "TypeError: cannot read properties of undefined (reading map)"

/-- The confirmation text of a successful navigation. -/
def navigateText (d : String) (ts : List Tool) : String :=
  "Navigated to " ++ d ++ " domain. Available tools: " ++
    String.intercalate ", " (ts.map Tool.name)

/-- The static text of the back tool. -/
def backText : String :=
  "Returned to domain selection. Use xero_navigate to select a domain: " ++
    "contacts, invoices, payments, accounts, reports"

/-- The CallTool handler of src/index.ts: exact match on the two
navigation identifiers, then prefix dispatch over the five domains, then
the unknown-tool error result; every thrown exception is caught and
returned as an error-flagged result. The returned pair is the navigation
state after the call and the response. In the navigate branch the state
is written before getDomainTools is consulted, so a failing navigation
still leaves the written value behind. -/
def handleCallTool (h : Handlers) (st : NavValue) (name : String)
    (args : Option JValue) : NavValue × CallResult :=
  if name = "xero_navigate" then
    match navDomainOf args with
    | .destructThrow => (st, ⟨"Error: " ++ destructureTypeErrorMessage, true⟩)
    | .setOther => (.other, ⟨"Error: " ++ undefinedMapTypeErrorMessage, true⟩)
    | .setDom d =>
      match getDomainTools d with
      | some ts => (.dom d, ⟨navigateText d ts, false⟩)
      | none => (.dom d, ⟨"Error: " ++ undefinedMapTypeErrorMessage, true⟩)
  else if name = "xero_back" then
    (.null, ⟨backText, false⟩)
  else
    let toolArgs := args.getD (.obj [])
    if strStartsWith name "xero_contacts_" then
      (st, wrapOutcome (h.contacts name toolArgs))
    else if strStartsWith name "xero_invoices_" then
      (st, wrapOutcome (h.invoices name toolArgs))
    else if strStartsWith name "xero_payments_" then
      (st, wrapOutcome (h.payments name toolArgs))
    else if strStartsWith name "xero_accounts_" then
      (st, wrapOutcome (h.accounts name toolArgs))
    else if strStartsWith name "xero_reports_" then
      (st, wrapOutcome (h.reports name toolArgs))
    else
      (st, ⟨"Unknown tool: " ++ name ++ ". Use xero_navigate to select a domain first.", true⟩)

/-! ## Concrete transports used to evaluate the client -/

/-- A fixed credential pair for concrete runs. -/
def testConfig : XeroClientConfig := ⟨"token", "tenant"⟩

/-- A page of the invoices resource holding n items, wrapped in the
resource-name-keyed envelope Xero uses. -/
def invoicesPage (n : Nat) : HttpResponse :=
  ⟨200, "", JValue.obj [("Invoices", .arr (List.replicate n (.str "inv")))]⟩

/-- A synthetic remote serving three pages of sizes 100, 100 and 37. -/
def transport3 : FetchRequest → HttpResponse := fun req =>
  if req.url = buildUrl "Invoices" [("page", "1")] then invoicesPage 100
  else if req.url = buildUrl "Invoices" [("page", "2")] then invoicesPage 100
  else if req.url = buildUrl "Invoices" [("page", "3")] then invoicesPage 37
  else invoicesPage 0

/-- A synthetic remote serving three full pages followed by an empty
page 4. -/
def transport4 : FetchRequest → HttpResponse := fun req =>
  if req.url = buildUrl "Invoices" [("page", "1")] then invoicesPage 100
  else if req.url = buildUrl "Invoices" [("page", "2")] then invoicesPage 100
  else if req.url = buildUrl "Invoices" [("page", "3")] then invoicesPage 100
  else invoicesPage 0

/-- A remote that rejects everything with a 404. -/
def transport404 : FetchRequest → HttpResponse := fun _ => ⟨404, "not found", .null⟩

/-- A remote that answers everything with 204 No Content. -/
def transport204 : FetchRequest → HttpResponse := fun _ => ⟨204, "", .null⟩

/-- Handlers that succeed with empty text, for concrete dispatch runs. -/
def trivialHandlers : Handlers :=
  ⟨fun _ _ => .success "", fun _ _ => .success "", fun _ _ => .success "",
   fun _ _ => .success "", fun _ _ => .success ""⟩

/-! ## C9: a 204 response yields a null result -/

/-- C9: for every client operation, a remote response with HTTP status 204
yields a null result, which is distinct from an empty structured payload
and is not reported as an error. -/
theorem status204_null_result (cfg : XeroClientConfig)
    (transport : FetchRequest → HttpResponse) (method path : String)
    (params : List (String × String)) (body : Option JValue)
    (h : (transport (mkFetchRequest cfg method path params body)).status = 204) :
    request cfg transport method path params body = .ok JValue.null ∧
    JValue.null ≠ JValue.obj [] := by
  have hok : respOk (transport (mkFetchRequest cfg method path params body)) = true := by
    simp [respOk, h]
  refine ⟨?_, fun hc => JValue.noConfusion hc⟩
  simp [request, hok, h]

/-- Witness: a concrete 204 reply to a GET on a single resource. -/
theorem status204_null_result_witness :
    (transport204 (mkFetchRequest testConfig "GET" "Invoices/abc" [] none)).status = 204 ∧
    (request testConfig transport204 "GET" "Invoices/abc" [] none = .ok JValue.null ∧
     JValue.null ≠ JValue.obj []) :=
  ⟨rfl, status204_null_result testConfig transport204 "GET" "Invoices/abc" [] none rfl⟩

/-! ## C6: non-2xx responses surface as structured errors -/

/-- C6: for every method, path and non-success status, the client call
(get, post, put, delete, and the page requests of getPaginated) results
in an error carrying the method, the path, the status code and the raw
response body, never a success result. -/
theorem request_non2xx_error (cfg : XeroClientConfig)
    (transport : FetchRequest → HttpResponse) (path : String)
    (params : List (String × String)) (body : JValue) (key : Option String)
    (fuel : Nat) :
    (respOk (transport (mkFetchRequest cfg "GET" path params none)) = false →
      get cfg transport path params =
        .error ⟨"GET", path, (transport (mkFetchRequest cfg "GET" path params none)).status,
                (transport (mkFetchRequest cfg "GET" path params none)).rawBody⟩) ∧
    (respOk (transport (mkFetchRequest cfg "POST" path [] (some body))) = false →
      post cfg transport path body =
        .error ⟨"POST", path, (transport (mkFetchRequest cfg "POST" path [] (some body))).status,
                (transport (mkFetchRequest cfg "POST" path [] (some body))).rawBody⟩) ∧
    (respOk (transport (mkFetchRequest cfg "PUT" path [] (some body))) = false →
      put cfg transport path body =
        .error ⟨"PUT", path, (transport (mkFetchRequest cfg "PUT" path [] (some body))).status,
                (transport (mkFetchRequest cfg "PUT" path [] (some body))).rawBody⟩) ∧
    (respOk (transport (mkFetchRequest cfg "DELETE" path [] none)) = false →
      deleteReq cfg transport path =
        .error ⟨"DELETE", path, (transport (mkFetchRequest cfg "DELETE" path [] none)).status,
                (transport (mkFetchRequest cfg "DELETE" path [] none)).rawBody⟩) ∧
    (respOk (transport (mkFetchRequest cfg "GET" path (pageParams params 1) none)) = false →
      getPaginated cfg transport path params key (fuel + 1) =
        .fail ⟨"GET", path,
               (transport (mkFetchRequest cfg "GET" path (pageParams params 1) none)).status,
               (transport (mkFetchRequest cfg "GET" path (pageParams params 1) none)).rawBody⟩
          [1]) := by
  refine ⟨fun h => by simp [get, request, h],
          fun h => by simp [post, request, h],
          fun h => by simp [put, request, h],
          fun h => by simp [deleteReq, request, h],
          fun h => ?_⟩
  have h1 : get cfg transport path (pageParams params 1) =
      .error ⟨"GET", path,
              (transport (mkFetchRequest cfg "GET" path (pageParams params 1) none)).status,
              (transport (mkFetchRequest cfg "GET" path (pageParams params 1) none)).rawBody⟩ := by
    simp [get, request, h]
  simp [getPaginated, getPaginatedAux, h1]

/-- Witness: every call against a remote that always answers 404 errors
with the 404 status and body. -/
theorem request_non2xx_error_witness :
    (respOk (transport404 (mkFetchRequest testConfig "GET" "Invoices" [] none)) = false ∧
      get testConfig transport404 "Invoices" [] =
        .error ⟨"GET", "Invoices", 404, "not found"⟩) ∧
    (respOk (transport404 (mkFetchRequest testConfig "GET" "Invoices" (pageParams [] 1) none)) = false ∧
      getPaginated testConfig transport404 "Invoices" [] none 10 =
        .fail ⟨"GET", "Invoices", 404, "not found"⟩ [1]) :=
  ⟨⟨rfl, (request_non2xx_error testConfig transport404 "Invoices" [] .null none 9).1 rfl⟩,
   ⟨rfl, (request_non2xx_error testConfig transport404 "Invoices" [] .null none 9).2.2.2.2 rfl⟩⟩

/-! ## C1: delegated-mode credential validation and swap -/

/-- C1 counterexample: a request to the protocol path in gateway mode in
which both headers are present, the access-token header with an empty
value, is answered with 401 and never reaches the protocol handler —
refuting that presence of both headers suffices for the
invalidate-and-overwrite path. -/
theorem gateway_empty_header_counterexample :
    httpHandle true ⟨none, none, none⟩ "/mcp" (some "") (some "tenant") =
      .unauthorized 401 "Missing credentials"
        "Gateway mode requires X-Xero-Access-Token and X-Xero-Tenant-Id headers"
        ["X-Xero-Access-Token", "X-Xero-Tenant-Id"] ∧
    httpHandle true ⟨none, none, none⟩ "/mcp" (some "") (some "tenant") ≠
      .handled ⟨none, some "", some "tenant"⟩ := by
  refine ⟨rfl, fun hg => ?_⟩
  rw [show httpHandle true ⟨none, none, none⟩ "/mcp" (some "") (some "tenant") =
        .unauthorized 401 "Missing credentials"
          "Gateway mode requires X-Xero-Access-Token and X-Xero-Tenant-Id headers"
          ["X-Xero-Access-Token", "X-Xero-Tenant-Id"] from rfl] at hg
  exact HttpReply.noConfusion hg

/-- C1 (amended): in gateway mode, a protocol-path request missing either
header — or carrying either header with an empty value — is answered
with 401 listing both header names in required and never reaches the
protocol handler; when both headers are present with non-empty values,
the cached client is invalidated and the process-wide credential
configuration is overwritten with the supplied pair, so the next client
constructed uses exactly the supplied token and tenant id. -/
theorem gateway_credential_swap (st : GlobalState)
    (accessHdr tenantHdr : Option String) :
    ((falsyStr accessHdr || falsyStr tenantHdr) = true →
      httpHandle true st "/mcp" accessHdr tenantHdr =
        .unauthorized 401 "Missing credentials"
          "Gateway mode requires X-Xero-Access-Token and X-Xero-Tenant-Id headers"
          ["X-Xero-Access-Token", "X-Xero-Tenant-Id"] ∧
      ∀ g : GlobalState, httpHandle true st "/mcp" accessHdr tenantHdr ≠ .handled g) ∧
    (∀ sa sten : String, accessHdr = some sa → tenantHdr = some sten →
      sa ≠ "" → sten ≠ "" →
      httpHandle true st "/mcp" accessHdr tenantHdr =
        .handled ⟨none, some sa, some sten⟩ ∧
      getClient ⟨none, some sa, some sten⟩ =
        .ok (⟨sa, sten⟩, ⟨some ⟨sa, sten⟩, some sa, some sten⟩)) := by
  constructor
  · intro hmiss
    have hh : httpHandle true st "/mcp" accessHdr tenantHdr =
        .unauthorized 401 "Missing credentials"
          "Gateway mode requires X-Xero-Access-Token and X-Xero-Tenant-Id headers"
          ["X-Xero-Access-Token", "X-Xero-Tenant-Id"] := by
      simp [httpHandle, hmiss]
    exact ⟨hh, fun g hg => by rw [hh] at hg; exact HttpReply.noConfusion hg⟩
  · intro sa sten ha ht hsa hsten
    subst ha ht
    have hmiss : (falsyStr (some sa) || falsyStr (some sten)) = false := by
      simp [falsyStr, hsa, hsten]
    constructor
    · simp [httpHandle, hmiss, resetClient]
    · simp [getClient, hsa, hsten]

/-- Witness: a request missing the tenant header is rejected with 401; a
request with both headers non-empty is handled with the cache dropped and
the environment overwritten, and the next constructed client holds
exactly the supplied pair. -/
theorem gateway_credential_swap_witness :
    (httpHandle true ⟨some ⟨"old", "old"⟩, some "oldTok", some "oldTen"⟩ "/mcp"
        (some "tok") none =
      .unauthorized 401 "Missing credentials"
        "Gateway mode requires X-Xero-Access-Token and X-Xero-Tenant-Id headers"
        ["X-Xero-Access-Token", "X-Xero-Tenant-Id"] ∧
      ∀ g : GlobalState,
        httpHandle true ⟨some ⟨"old", "old"⟩, some "oldTok", some "oldTen"⟩ "/mcp"
          (some "tok") none ≠ .handled g) ∧
    (httpHandle true ⟨some ⟨"old", "old"⟩, some "oldTok", some "oldTen"⟩ "/mcp"
        (some "tok") (some "ten") =
      .handled ⟨none, some "tok", some "ten"⟩ ∧
     getClient ⟨none, some "tok", some "ten"⟩ =
       .ok (⟨"tok", "ten"⟩, ⟨some ⟨"tok", "ten"⟩, some "tok", some "ten"⟩)) :=
  ⟨(gateway_credential_swap ⟨some ⟨"old", "old"⟩, some "oldTok", some "oldTen"⟩
      (some "tok") none).1 (by decide),
   (gateway_credential_swap ⟨some ⟨"old", "old"⟩, some "oldTok", some "oldTen"⟩
      (some "tok") (some "ten")).2 "tok" "ten" rfl rfl (by decide) (by decide)⟩

/-! ## C3: tool listing is a pure projection of the navigation state -/

/-- C3: at the root, listing exposes exactly the navigate tool; inside
each of the five domains it exposes exactly the back tool plus that
domain's registered tools, and no tool registered for any other domain. -/
theorem listTools_partition :
    listTools .null = some [navigateTool] ∧
    ∀ d, d ∈ domainNames → ∃ ts, getDomainTools d = some ts ∧
      listTools (.dom d) = some (backTool :: ts) ∧
      ∀ dd, dd ∈ domainNames → dd ≠ d →
        ∀ t, t ∈ (getDomainTools dd).getD [] → t ∉ ts := by
  refine ⟨rfl, ?_⟩
  intro d hd
  fin_cases hd <;> exact ⟨_, rfl, rfl, by decide⟩

/-- Witness: the invoices domain listing. -/
theorem listTools_partition_witness :
    "invoices" ∈ domainNames ∧
    ∃ ts, getDomainTools "invoices" = some ts ∧
      listTools (.dom "invoices") = some (backTool :: ts) ∧
      ∀ dd, dd ∈ domainNames → dd ≠ "invoices" →
        ∀ t, t ∈ (getDomainTools dd).getD [] → t ∉ ts :=
  ⟨by decide, listTools_partition.2 "invoices" (by decide)⟩

/-! ## Prefix dispatch helpers -/

/-- Two prefixes of one string agree on their common length. -/
lemma strStartsWith_both {s : String} (p q : String)
    (hp : strStartsWith s p = true) (hq : strStartsWith s q = true) :
    p.data.take q.data.length = q.data.take p.data.length := by
  have hp' : s.data.take p.data.length = p.data := by
    simpa [strStartsWith] using hp
  have hq' : s.data.take q.data.length = q.data := by
    simpa [strStartsWith] using hq
  calc p.data.take q.data.length
      = (s.data.take p.data.length).take q.data.length := by rw [hp']
    _ = s.data.take (q.data.length ⊓ p.data.length) := by rw [List.take_take]
    _ = s.data.take (p.data.length ⊓ q.data.length) := by rw [inf_comm]
    _ = (s.data.take q.data.length).take p.data.length := by rw [List.take_take]
    _ = q.data.take p.data.length := by rw [hq']

/-- Incompatible prefixes exclude each other. -/
lemma strStartsWith_excl (p q : String)
    (hne : p.data.take q.data.length ≠ q.data.take p.data.length)
    (s : String) (hq : strStartsWith s q = true) : strStartsWith s p = false := by
  by_contra h
  rw [Bool.not_eq_false] at h
  exact hne (strStartsWith_both p q h hq)

/-- A string with a prefix another string lacks differs from it. -/
lemma ne_of_prefix_mismatch {s t p : String} (h : strStartsWith s p = true)
    (ht : strStartsWith t p = false) : s ≠ t := by
  intro he
  rw [he, ht] at h
  exact Bool.noConfusion h

/-- Dispatch of a contacts-prefixed identifier reaches the contacts
handler and returns its wrapped outcome with the state untouched. -/
lemma dispatch_contacts (h : Handlers) (st : NavValue) (name : String)
    (args : Option JValue) (hc : strStartsWith name "xero_contacts_" = true) :
    handleCallTool h st name args =
      (st, wrapOutcome (h.contacts name (args.getD (.obj [])))) := by
  have h1 : name ≠ "xero_navigate" := ne_of_prefix_mismatch hc (by decide)
  have h2 : name ≠ "xero_back" := ne_of_prefix_mismatch hc (by decide)
  simp [handleCallTool, h1, h2, hc]

/-- Dispatch of an invoices-prefixed identifier reaches the invoices
handler. -/
lemma dispatch_invoices (h : Handlers) (st : NavValue) (name : String)
    (args : Option JValue) (hc : strStartsWith name "xero_invoices_" = true) :
    handleCallTool h st name args =
      (st, wrapOutcome (h.invoices name (args.getD (.obj [])))) := by
  have h1 : name ≠ "xero_navigate" := ne_of_prefix_mismatch hc (by decide)
  have h2 : name ≠ "xero_back" := ne_of_prefix_mismatch hc (by decide)
  have e1 := strStartsWith_excl "xero_contacts_" "xero_invoices_" (by decide) name hc
  simp [handleCallTool, h1, h2, e1, hc]

/-- Dispatch of a payments-prefixed identifier reaches the payments
handler. -/
lemma dispatch_payments (h : Handlers) (st : NavValue) (name : String)
    (args : Option JValue) (hc : strStartsWith name "xero_payments_" = true) :
    handleCallTool h st name args =
      (st, wrapOutcome (h.payments name (args.getD (.obj [])))) := by
  have h1 : name ≠ "xero_navigate" := ne_of_prefix_mismatch hc (by decide)
  have h2 : name ≠ "xero_back" := ne_of_prefix_mismatch hc (by decide)
  have e1 := strStartsWith_excl "xero_contacts_" "xero_payments_" (by decide) name hc
  have e2 := strStartsWith_excl "xero_invoices_" "xero_payments_" (by decide) name hc
  simp [handleCallTool, h1, h2, e1, e2, hc]

/-- Dispatch of an accounts-prefixed identifier reaches the accounts
handler. -/
lemma dispatch_accounts (h : Handlers) (st : NavValue) (name : String)
    (args : Option JValue) (hc : strStartsWith name "xero_accounts_" = true) :
    handleCallTool h st name args =
      (st, wrapOutcome (h.accounts name (args.getD (.obj [])))) := by
  have h1 : name ≠ "xero_navigate" := ne_of_prefix_mismatch hc (by decide)
  have h2 : name ≠ "xero_back" := ne_of_prefix_mismatch hc (by decide)
  have e1 := strStartsWith_excl "xero_contacts_" "xero_accounts_" (by decide) name hc
  have e2 := strStartsWith_excl "xero_invoices_" "xero_accounts_" (by decide) name hc
  have e3 := strStartsWith_excl "xero_payments_" "xero_accounts_" (by decide) name hc
  simp [handleCallTool, h1, h2, e1, e2, e3, hc]

/-- Dispatch of a reports-prefixed identifier reaches the reports
handler. -/
lemma dispatch_reports (h : Handlers) (st : NavValue) (name : String)
    (args : Option JValue) (hc : strStartsWith name "xero_reports_" = true) :
    handleCallTool h st name args =
      (st, wrapOutcome (h.reports name (args.getD (.obj [])))) := by
  have h1 : name ≠ "xero_navigate" := ne_of_prefix_mismatch hc (by decide)
  have h2 : name ≠ "xero_back" := ne_of_prefix_mismatch hc (by decide)
  have e1 := strStartsWith_excl "xero_contacts_" "xero_reports_" (by decide) name hc
  have e2 := strStartsWith_excl "xero_invoices_" "xero_reports_" (by decide) name hc
  have e3 := strStartsWith_excl "xero_payments_" "xero_reports_" (by decide) name hc
  have e4 := strStartsWith_excl "xero_accounts_" "xero_reports_" (by decide) name hc
  simp [handleCallTool, h1, h2, e1, e2, e3, e4, hc]

/-- Any call that is neither navigation identifier leaves the navigation
state unchanged. -/
lemma non_nav_preserves_state (h : Handlers) (st : NavValue) (name : String)
    (args : Option JValue) (hn : name ≠ "xero_navigate") (hb : name ≠ "xero_back") :
    (handleCallTool h st name args).1 = st := by
  simp only [handleCallTool, if_neg hn, if_neg hb]
  split_ifs <;> rfl

/-! ## C7: unknown tool identifiers yield error-flagged results -/

/-- C7: dispatch of an identifier that is neither navigation identifier
and carries none of the five domain prefixes returns the unknown-tool
error-flagged result — a returned value, not an unhandled failure — and
leaves the state unchanged. -/
theorem unknown_tool_error_result (h : Handlers) (st : NavValue) (name : String)
    (args : Option JValue)
    (hn : name ≠ "xero_navigate") (hb : name ≠ "xero_back")
    (h1 : strStartsWith name "xero_contacts_" = false)
    (h2 : strStartsWith name "xero_invoices_" = false)
    (h3 : strStartsWith name "xero_payments_" = false)
    (h4 : strStartsWith name "xero_accounts_" = false)
    (h5 : strStartsWith name "xero_reports_" = false) :
    handleCallTool h st name args =
      (st, ⟨"Unknown tool: " ++ name ++ ". Use xero_navigate to select a domain first.",
            true⟩) := by
  simp [handleCallTool, hn, hb, h1, h2, h3, h4, h5]

/-- Witness: a concrete unrecognized identifier. -/
theorem unknown_tool_error_result_witness :
    handleCallTool trivialHandlers .null "foo_tool" none =
      (.null, ⟨"Unknown tool: " ++ "foo_tool" ++ ". Use xero_navigate to select a domain first.",
               true⟩) :=
  unknown_tool_error_result trivialHandlers .null "foo_tool" none
    (by decide) (by decide) (by decide) (by decide) (by decide) (by decide) (by decide)

/-! ## C10: dispatch does not consult the navigation state -/

/-- C10: for every identifier carrying one of the five domain prefixes,
the CallTool handler invokes that domain's handler whatever the current
navigation state is; the state only rides along unchanged, so visibility
restricts listing but never execution. -/
theorem dispatch_ignores_navigation_state (h : Handlers) (st : NavValue)
    (name : String) (args : Option JValue) :
    (strStartsWith name "xero_contacts_" = true →
      handleCallTool h st name args =
        (st, wrapOutcome (h.contacts name (args.getD (.obj []))))) ∧
    (strStartsWith name "xero_invoices_" = true →
      handleCallTool h st name args =
        (st, wrapOutcome (h.invoices name (args.getD (.obj []))))) ∧
    (strStartsWith name "xero_payments_" = true →
      handleCallTool h st name args =
        (st, wrapOutcome (h.payments name (args.getD (.obj []))))) ∧
    (strStartsWith name "xero_accounts_" = true →
      handleCallTool h st name args =
        (st, wrapOutcome (h.accounts name (args.getD (.obj []))))) ∧
    (strStartsWith name "xero_reports_" = true →
      handleCallTool h st name args =
        (st, wrapOutcome (h.reports name (args.getD (.obj []))))) :=
  ⟨dispatch_contacts h st name args, dispatch_invoices h st name args,
   dispatch_payments h st name args, dispatch_accounts h st name args,
   dispatch_reports h st name args⟩

/-- Witness: an invoices tool dispatched while no domain is selected still
reaches the invoices handler. -/
theorem dispatch_ignores_navigation_state_witness :
    handleCallTool trivialHandlers .null "xero_invoices_get" none =
      (.null, wrapOutcome (trivialHandlers.invoices "xero_invoices_get"
        ((none : Option JValue).getD (.obj [])))) :=
  (dispatch_ignores_navigation_state trivialHandlers .null "xero_invoices_get"
      none).2.1 (by decide)

/-! ## C8: only the navigation operations mutate the navigation state -/

/-- C8: dispatching any domain tool — whether its handler succeeds,
returns an error-flagged result, or throws — leaves the navigation state
exactly as it was. -/
theorem dispatch_preserves_navigation_state (h : Handlers) (st : NavValue)
    (name : String) (args : Option JValue)
    (hdom : strStartsWith name "xero_contacts_" = true ∨
            strStartsWith name "xero_invoices_" = true ∨
            strStartsWith name "xero_payments_" = true ∨
            strStartsWith name "xero_accounts_" = true ∨
            strStartsWith name "xero_reports_" = true) :
    (handleCallTool h st name args).1 = st := by
  rcases hdom with hc | hc | hc | hc | hc
  · exact non_nav_preserves_state h st name args
      (ne_of_prefix_mismatch hc (by decide)) (ne_of_prefix_mismatch hc (by decide))
  · exact non_nav_preserves_state h st name args
      (ne_of_prefix_mismatch hc (by decide)) (ne_of_prefix_mismatch hc (by decide))
  · exact non_nav_preserves_state h st name args
      (ne_of_prefix_mismatch hc (by decide)) (ne_of_prefix_mismatch hc (by decide))
  · exact non_nav_preserves_state h st name args
      (ne_of_prefix_mismatch hc (by decide)) (ne_of_prefix_mismatch hc (by decide))
  · exact non_nav_preserves_state h st name args
      (ne_of_prefix_mismatch hc (by decide)) (ne_of_prefix_mismatch hc (by decide))

/-- Handlers that throw on every call, to witness state preservation
under handler failure. -/
def throwingHandlers : Handlers :=
  ⟨fun _ _ => .thrown "remote error", fun _ _ => .thrown "remote error",
   fun _ _ => .thrown "remote error", fun _ _ => .thrown "remote error",
   fun _ _ => .thrown "remote error"⟩

/-- Witness: a payments tool whose handler throws leaves the selected
contacts domain selected. -/
theorem dispatch_preserves_navigation_state_witness :
    (handleCallTool throwingHandlers (.dom "contacts") "xero_payments_create"
        none).1 = .dom "contacts" :=
  dispatch_preserves_navigation_state throwingHandlers (.dom "contacts")
    "xero_payments_create" none (Or.inr (Or.inr (Or.inl (by decide))))

/-! ## C4: the navigation-state domain invariant -/

/-- The state holds one of the five enumerated domains or none. -/
def validNav (st : NavValue) : Prop :=
  st = .null ∨ ∃ d, st = .dom d ∧ d ∈ domainNames

/-- A navigate call stores its string argument in the state before the
domain switch is consulted. -/
lemma navigate_sets_dom (h : Handlers) (st : NavValue)
    (fields : List (String × JValue)) (d : String)
    (hdom : fields.lookup "domain" = some (.str d)) :
    (handleCallTool h st "xero_navigate" (some (.obj fields))).1 = .dom d := by
  simp only [handleCallTool, if_pos rfl, navDomainOf, hdom]
  cases hgd : getDomainTools d <;> simp

/-- C4 counterexample: navigate called with the out-of-set string bogus
leaves the navigation state holding bogus — the enumerated-set invariant
is not enforced at dispatch time. -/
theorem navigate_unvalidated_domain_counterexample :
    (handleCallTool trivialHandlers .null "xero_navigate"
        (some (.obj [("domain", .str "bogus")]))).1 = .dom "bogus" ∧
    "bogus" ∉ domainNames ∧ ¬ validNav (.dom "bogus") := by
  refine ⟨navigate_sets_dom trivialHandlers .null _ _ rfl, by decide, ?_⟩
  rintro (hn | ⟨d, hd, hmem⟩)
  · exact NavValue.noConfusion hn
  · cases hd
    exact absurd hmem (by decide)

/-- C4 (amended): navigate stores its domain argument without validating
membership in the enumerated set, so an out-of-set argument leaves the
state holding that value; for every sequence of operations in which
navigate is only invoked with an argument from the enumerated set, the
state always holds one of the five domains or none, and navigate with an
in-set argument establishes exactly that domain. -/
theorem navigation_state_invariant_amended (h : Handlers) (st : NavValue)
    (name : String) (args : Option JValue)
    (hvalid : validNav st)
    (hnav : name = "xero_navigate" →
      ∃ fields d, args = some (.obj fields) ∧
        fields.lookup "domain" = some (.str d) ∧ d ∈ domainNames) :
    validNav (handleCallTool h st name args).1 ∧
    (∀ fields d, name = "xero_navigate" → args = some (.obj fields) →
      fields.lookup "domain" = some (.str d) →
      (handleCallTool h st name args).1 = .dom d) := by
  by_cases hn : name = "xero_navigate"
  · obtain ⟨fields, d, hargs, hdom, hmem⟩ := hnav hn
    subst hn hargs
    constructor
    · rw [navigate_sets_dom h st fields d hdom]
      exact Or.inr ⟨d, rfl, hmem⟩
    · intro fields2 d2 _ hargs2 hdom2
      obtain rfl : fields = fields2 := by injection hargs2 with h2; injection h2
      rw [hdom] at hdom2
      obtain rfl : d = d2 := by injection hdom2 with h2; injection h2
      exact navigate_sets_dom h st fields d hdom
  · refine ⟨?_, fun _ _ hn2 => absurd hn2 hn⟩
    by_cases hb : name = "xero_back"
    · subst hb
      simp only [handleCallTool, if_neg (by decide : ¬ ("xero_back" = "xero_navigate")),
                 if_pos rfl]
      exact Or.inl rfl
    · rw [non_nav_preserves_state h st name args hn hb]
      exact hvalid

/-- Witness: navigating to the in-set invoices domain from the root
establishes the invoices domain and keeps the invariant. -/
theorem navigation_state_invariant_amended_witness :
    validNav (handleCallTool trivialHandlers .null "xero_navigate"
        (some (.obj [("domain", .str "invoices")]))).1 ∧
    (∀ fields d, "xero_navigate" = "xero_navigate" →
      (some (.obj [("domain", .str "invoices")]) : Option JValue) = some (.obj fields) →
      fields.lookup "domain" = some (.str d) →
      (handleCallTool trivialHandlers .null "xero_navigate"
          (some (.obj [("domain", .str "invoices")]))).1 = .dom d) :=
  navigation_state_invariant_amended trivialHandlers .null "xero_navigate"
    (some (.obj [("domain", .str "invoices")])) (Or.inl rfl)
    (fun _ => ⟨[("domain", .str "invoices")], "invoices", rfl, rfl, by decide⟩)


/-! ## Pagination loop characterization -/

/-- Any done outcome of the pagination loop requested consecutive page
numbers starting at the start page and accumulated the extracted items of
those pages in order. -/
lemma pagAux_done_characterization (F : Nat → Except XeroError JValue)
    (key : Option String) :
    ∀ fuel page acc log items logF,
      getPaginatedAux F key fuel page acc log = .done items logF →
      ∃ n, logF = log ++ List.range' page n ∧
        items = acc ++ ((List.range' page n).map (pageItems F key)).flatten := by
  intro fuel
  induction fuel with
  | zero =>
    intro page acc log items logF h
    simp [getPaginatedAux] at h
  | succ fuel ih =>
    intro page acc log items logF h
    simp only [getPaginatedAux] at h
    cases hF : F page with
    | error e =>
      simp only [hF] at h
      exact PagOutcome.noConfusion h
    | ok body =>
      simp only [hF] at h
      cases hE : extractItems body key with
      | raised =>
        simp only [hE] at h
        exact PagOutcome.noConfusion h
      | noItems =>
        simp only [hE] at h
        injection h with h1 h2
        subst h1
        subst h2
        refine ⟨1, by simp [List.range'_one], ?_⟩
        simp [List.range'_one, pageItems, hF, hE]
      | items its =>
        simp only [hE] at h
        by_cases hpos : its.length > 0
        · rw [if_pos hpos] at h
          by_cases hfull : XERO_PAGE_SIZE ≤ its.length
          · rw [if_pos hfull] at h
            obtain ⟨n, hlog, hitems⟩ := ih (page + 1) (acc ++ its) (log ++ [page]) items logF h
            refine ⟨n + 1, ?_, ?_⟩
            · rw [hlog, List.range'_succ]
              simp
            · rw [hitems, List.range'_succ]
              simp [pageItems, hF, hE]
          · rw [if_neg hfull] at h
            injection h with h1 h2
            subst h1
            subst h2
            refine ⟨1, by simp [List.range'_one], ?_⟩
            simp [List.range'_one, pageItems, hF, hE]
        · rw [if_neg hpos] at h
          injection h with h1 h2
          subst h1
          subst h2
          have hempty : its = [] := by
            cases its with
            | nil => rfl
            | cons a l => simp at hpos
          refine ⟨1, by simp [List.range'_one], ?_⟩
          simp [List.range'_one, pageItems, hF, hE, hempty]

/-- When all pages before page k are full and page k is short or empty,
the loop run from any start page at or below k stops exactly at page k
with a done outcome. -/
lemma pagAux_runs_to_short (F : Nat → Except XeroError JValue) (key : Option String)
    (k : Nat) (hshort : shortPage F key k = true)
    (hfull : ∀ m, m < k → 1 ≤ m → contAt F key m = true) :
    ∀ fuel page acc log, 1 ≤ page → page ≤ k → k + 1 ≤ page + fuel →
      ∃ items, getPaginatedAux F key fuel page acc log =
        .done items (log ++ List.range' page (k + 1 - page)) := by
  intro fuel
  induction fuel with
  | zero =>
    intro page acc log h1 h2 h3
    omega
  | succ fuel ih =>
    intro page acc log h1 h2 h3
    by_cases hpk : page = k
    · subst hpk
      have hsub : page + 1 - page = 1 := by omega
      unfold shortPage at hshort
      cases hF : F page with
      | error e =>
        simp only [hF] at hshort
        exact Bool.noConfusion hshort
      | ok body =>
        simp only [hF] at hshort
        cases hE : extractItems body key with
        | raised =>
          simp only [hE] at hshort
          exact Bool.noConfusion hshort
        | noItems =>
          refine ⟨acc, ?_⟩
          simp only [getPaginatedAux, hF, hE]
          rw [hsub, List.range'_one]
        | items its =>
          simp only [hE] at hshort
          have hlen : its.length < XERO_PAGE_SIZE := of_decide_eq_true hshort
          have hnotfull : ¬ (XERO_PAGE_SIZE ≤ its.length) := by omega
          by_cases hpos : its.length > 0
          · refine ⟨acc ++ its, ?_⟩
            simp only [getPaginatedAux, hF, hE]
            rw [if_pos hpos, if_neg hnotfull, hsub, List.range'_one]
          · refine ⟨acc, ?_⟩
            simp only [getPaginatedAux, hF, hE]
            rw [if_neg hpos, hsub, List.range'_one]
    · have hlt : page < k := by omega
      have hc := hfull page hlt h1
      unfold contAt at hc
      cases hF : F page with
      | error e =>
        simp only [hF] at hc
        exact Bool.noConfusion hc
      | ok body =>
        simp only [hF] at hc
        cases hE : extractItems body key with
        | raised =>
          simp only [hE] at hc
          exact Bool.noConfusion hc
        | noItems =>
          simp only [hE] at hc
          exact Bool.noConfusion hc
        | items its =>
          simp only [hE] at hc
          have hfull2 : XERO_PAGE_SIZE ≤ its.length := of_decide_eq_true hc
          have h100 : XERO_PAGE_SIZE = 100 := rfl
          have hpos : its.length > 0 := by omega
          obtain ⟨items, hrec⟩ :=
            ih (page + 1) (acc ++ its) (log ++ [page]) (by omega) (by omega) (by omega)
          refine ⟨items, ?_⟩
          simp only [getPaginatedAux, hF, hE]
          rw [if_pos hpos, if_pos hfull2, hrec]
          have hlist : (log ++ [page]) ++ List.range' (page + 1) (k + 1 - (page + 1)) =
              log ++ List.range' page (k + 1 - page) := by
            have h5 : k + 1 - (page + 1) = k - page := by omega
            have h6 : k + 1 - page = (k - page) + 1 := by omega
            rw [h5, h6, List.range'_succ]
            simp
          rw [hlist]

/-- A page number one past a non-continuing page is never requested
(beyond pages at or before the start). -/
lemma pagAux_no_overrun (F : Nat → Except XeroError JValue) (key : Option String) :
    ∀ fuel page acc log n,
      n + 1 ∈ pagLog (getPaginatedAux F key fuel page acc log) →
      n + 1 ∈ log ∨ n + 1 = page ∨ contAt F key n = true := by
  intro fuel
  induction fuel with
  | zero =>
    intro page acc log n h
    simp [getPaginatedAux, pagLog] at h
    exact Or.inl h
  | succ fuel ih =>
    intro page acc log n h
    simp only [getPaginatedAux] at h
    cases hF : F page with
    | error e =>
      simp only [hF, pagLog] at h
      rcases List.mem_append.mp h with h | h
      · exact Or.inl h
      · simp at h
        exact Or.inr (Or.inl h)
    | ok body =>
      simp only [hF] at h
      cases hE : extractItems body key with
      | raised =>
        simp only [hE, pagLog] at h
        rcases List.mem_append.mp h with h | h
        · exact Or.inl h
        · simp at h
          exact Or.inr (Or.inl h)
      | noItems =>
        simp only [hE, pagLog] at h
        rcases List.mem_append.mp h with h | h
        · exact Or.inl h
        · simp at h
          exact Or.inr (Or.inl h)
      | items its =>
        simp only [hE] at h
        by_cases hpos : its.length > 0
        · by_cases hfull : XERO_PAGE_SIZE ≤ its.length
          · rw [if_pos hpos, if_pos hfull] at h
            rcases ih (page + 1) (acc ++ its) (log ++ [page]) n h with h1 | h1 | h1
            · rcases List.mem_append.mp h1 with h2 | h2
              · exact Or.inl h2
              · simp at h2
                exact Or.inr (Or.inl h2)
            · have hnp : n = page := by omega
              subst hnp
              refine Or.inr (Or.inr ?_)
              simp [contAt, hF, hE, hfull]
            · exact Or.inr (Or.inr h1)
          · rw [if_pos hpos, if_neg hfull] at h
            simp [pagLog] at h
            rcases h with h | h
            · exact Or.inl h
            · exact Or.inr (Or.inl h)
        · rw [if_neg hpos] at h
          simp [pagLog] at h
          rcases h with h | h
          · exact Or.inl h
          · exact Or.inr (Or.inl h)

/-! ## C2: getPaginated pages from 1 and concatenates in page order -/

set_option maxRecDepth 1000000 in
/-- C2: every done run of getPaginated requested the consecutive 1-based
page numbers 1..n and returned the concatenation, in page order, of the
arrays extracted from each page — the caller-keyed field or the first
array-valued field; in particular the synthetic 3-page sequence of sizes
100, 100, 37 yields 237 items from exactly 3 page requests. -/
theorem getPaginated_pages_and_concat :
    (∀ (cfg : XeroClientConfig) (transport : FetchRequest → HttpResponse)
       (path : String) (params : List (String × String)) (key : Option String)
       (fuel : Nat) (items : List JValue) (logF : List Nat),
      getPaginated cfg transport path params key fuel = .done items logF →
      logF = List.range' 1 logF.length ∧
      items = (logF.map (pageItems
        (fun page => get cfg transport path (pageParams params page)) key)).flatten) ∧
    getPaginated testConfig transport3 "Invoices" [] none 10 =
      .done (List.replicate 237 (JValue.str "inv")) [1, 2, 3] := by
  constructor
  · intro cfg transport path params key fuel items logF h
    rw [getPaginated] at h
    obtain ⟨n, hlog, hitems⟩ :=
      pagAux_done_characterization _ key fuel 1 [] [] items logF h
    rw [List.nil_append] at hlog
    subst hlog
    rw [List.nil_append] at hitems
    exact ⟨by rw [List.length_range'], hitems⟩
  · rfl

set_option maxRecDepth 1000000 in
/-- Witness: the 3-page run instantiates the characterization — the log
is 1, 2, 3 and the 237 items are the pagewise concatenation. -/
theorem getPaginated_pages_and_concat_witness :
    ([1, 2, 3] : List Nat) = List.range' 1 ([1, 2, 3] : List Nat).length ∧
    List.replicate 237 (JValue.str "inv") =
      (([1, 2, 3] : List Nat).map (pageItems
        (fun page => get testConfig transport3 "Invoices" (pageParams [] page))
        none)).flatten :=
  getPaginated_pages_and_concat.1 testConfig transport3 "Invoices" [] none 10
    (List.replicate 237 (JValue.str "inv")) [1, 2, 3]
    getPaginated_pages_and_concat.2

/-! ## C5: termination and no request past a short page -/

set_option maxRecDepth 1000000 in
/-- C5: whenever pages 1..k-1 are full and page k yields fewer than the
page size (zero included), the loop with at least k fuel stops with a
done outcome after exactly the page requests 1..k; and in any run, once a
page does not continue the loop, the next page number is never requested;
in particular three full pages followed by an empty page terminate after
4 requests. -/
theorem getPaginated_terminates_no_overrun :
    (∀ (F : Nat → Except XeroError JValue) (key : Option String) (k fuel : Nat),
      1 ≤ k → k ≤ fuel →
      (∀ m, m < k → 1 ≤ m → contAt F key m = true) →
      shortPage F key k = true →
      ∃ items, getPaginatedAux F key fuel 1 [] [] =
        .done items (List.range' 1 k)) ∧
    (∀ (F : Nat → Except XeroError JValue) (key : Option String) (fuel n : Nat),
      1 ≤ n → contAt F key n = false →
      n + 1 ∉ pagLog (getPaginatedAux F key fuel 1 [] [])) ∧
    getPaginated testConfig transport4 "Invoices" [] none 10 =
      .done (List.replicate 300 (JValue.str "inv")) [1, 2, 3, 4] := by
  refine ⟨?_, ?_, rfl⟩
  · intro F key k fuel h1 h2 hfull hshort
    obtain ⟨items, hrun⟩ :=
      pagAux_runs_to_short F key k hshort hfull fuel 1 [] [] le_rfl h1 (by omega)
    refine ⟨items, ?_⟩
    simpa using hrun
  · intro F key fuel n h1 hfalse hmem
    rcases pagAux_no_overrun F key fuel 1 [] [] n hmem with h | h | h
    · simp at h
    · omega
    · rw [hfalse] at h
      exact Bool.noConfusion h

/-- The page fetcher of the three-full-pages-then-empty run. -/
def fetchPage4 : Nat → Except XeroError JValue := fun page =>
  get testConfig transport4 "Invoices" (pageParams [] page)

set_option maxRecDepth 1000000 in
/-- Witness: over three full pages and an empty page 4, the loop stops
with requests exactly 1..4 and page 5 is never requested. -/
theorem getPaginated_terminates_no_overrun_witness :
    (∃ items, getPaginatedAux fetchPage4 none 10 1 [] [] =
        .done items (List.range' 1 4)) ∧
    4 + 1 ∉ pagLog (getPaginatedAux fetchPage4 none 10 1 [] []) :=
  ⟨getPaginated_terminates_no_overrun.1 fetchPage4 none 4 10 (by decide) (by decide)
      (by decide) (by decide),
   getPaginated_terminates_no_overrun.2.1 fetchPage4 none 10 4 (by decide) (by decide)⟩

end XeroMcp
